import Mathlib

/-!
Shallow embedding of `run_interactive_command` from
`src/ra_aid/proc/interactive.py`, POSIX branch (`os.name != 'nt'`).

The operating system, the keyboard and the child process are modelled as an
oracle (`World`): the result of the i-th `proc.poll()` call, the i-th event
returned by `keyboard.read_event()`, the outcome of the i-th
`os.write(master_fd, _)` and `os.read(master_fd, 1024)` calls, whether
`subprocess.Popen` succeeds, and `os.environ`.  Every OS-visible effect of the
function is recorded, in order, in a trace of `Action`s.  The Python `while`
loop need not terminate, so the loop is run on fuel and the embedding returns
`none` when the fuel runs out.  The live display (`print(chunk.decode(), ...)`)
is recorded as a `printChunk` action; its decoding step is modelled as total.
-/

namespace RaAid

/-- Byte strings (Python `bytes`) as lists of byte values. -/
abbrev Bytes := List Nat

/-- UTF-8 encoding of one Unicode scalar value. -/
def utf8Bytes (c : Nat) : List Nat :=
  if c < 0x80 then [c]
  else if c < 0x800 then [0xC0 + c / 0x40, 0x80 + c % 0x40]
  else if c < 0x10000 then
    [0xE0 + c / 0x1000, 0x80 + c / 0x40 % 0x40, 0x80 + c % 0x40]
  else
    [0xF0 + c / 0x40000, 0x80 + c / 0x1000 % 0x40, 0x80 + c / 0x40 % 0x40,
     0x80 + c % 0x40]

/-- Python `str.encode()`: the UTF-8 bytes of a string. -/
def encodeStr (s : String) : Bytes :=
  (s.data.map fun c => utf8Bytes c.toNat).flatten

/-- The `keyboard` module's event kinds: `KEY_DOWN` (press) or `KEY_UP`
(release). -/
inductive EventType
  | keyDown
  | keyUp
deriving DecidableEq

/-- A `keyboard.KeyboardEvent`: its `event_type` and symbolic key `name`. -/
structure KeyEvent where
  event_type : EventType
  name : String
deriving DecidableEq

/-- `signal.SIGINT`. -/
def SIGINT : Nat := 2

/-- Whether a signal is delivered to the child process alone (`os.kill` on the
pid, which is what `subprocess.Popen.send_signal` performs) or to its whole
process group (`os.killpg`). -/
inductive SigTarget
  | pid
  | processGroup
deriving DecidableEq

/-- Result of one `os.read(master_fd, 1024)` call: a chunk of bytes (possibly
empty), or an `OSError`. -/
inductive ReadResult
  | chunk (data : Bytes)
  | ioError
deriving DecidableEq

/-- Result of one `os.write(master_fd, _)` call: success, or an `OSError`. -/
inductive WriteResult
  | ok
  | ioError
deriving DecidableEq

/-- Oracle for everything outside the function under test. -/
structure World where
  polls : Nat → Option Int
  events : Nat → KeyEvent
  writeResults : Nat → WriteResult
  reads : Nat → ReadResult
  spawnOk : Bool
  environ : List (String × String)

/-- The OS-visible effects of `run_interactive_command`, in program order. -/
inductive Action
  | getTerminalSize
  | openPty
  | spawnAttempt (cmd : List String) (env : List (String × String))
  | closeSlaveFd
  | pollChild
  | readKeyEvent
  | sendSignal (target : SigTarget) (signalNum : Nat)
  | writeMaster (data : Bytes)
  | readMaster
  | printChunk (data : Bytes)
  | closeMasterFd
deriving DecidableEq

/-- Number of occurrences of an action in a trace. -/
def countAct (tr : List Action) (a : Action) : Nat :=
  tr.countP fun b => decide (b = a)

/-- Python dict assignment `env[k] = v` on an association-list model of the
environment: overwrite the first binding of `k`, or append a new one. -/
def setEnvVar : List (String × String) → String → String → List (String × String)
  | [], k, v => [(k, v)]
  | p :: rest, k, v => if p.1 = k then (k, v) :: rest else p :: setEnvVar rest k v

/-- Python dict lookup `env[k]` on the association-list model. -/
def lookupEnv : List (String × String) → String → Option String
  | [], _ => none
  | p :: rest, k => if p.1 = k then some p.2 else lookupEnv rest k

/-- The environment handed to `subprocess.Popen`:
`env = os.environ.copy(); env['TERM'] = 'xterm'`. -/
def spawnEnv (w : World) : List (String × String) :=
  setEnvVar w.environ "TERM" "xterm"

/-- Mutable state of the control loop: the accumulated `output` bytes, the
cached `proc.returncode` (updated only by `proc.poll()`), and cursors into the
oracle's four streams. -/
structure LoopState where
  output : Bytes
  returncode : Option Int
  pollIdx : Nat
  eventIdx : Nat
  writeIdx : Nat
  readIdx : Nat
deriving DecidableEq

/-- How the `while` loop ended via one of its three in-language routes. -/
inductive ExitRoute
  | childExited
  | interrupted
  | readError
deriving DecidableEq

/-- How the loop ended: through one of the three in-language routes, or by an
uncaught `OSError` from `os.write` propagating out of the loop body. -/
inductive LoopEnd
  | normal (route : ExitRoute)
  | writeRaised
deriving DecidableEq

/-- One `os.read(master_fd, 1024)` step of the loop body: on a non-empty chunk
append it to `output` and print it; on an empty chunk do nothing; on `OSError`
`break` out of the loop. -/
def doRead (w : World) (s : LoopState) : LoopState × List Action × Option LoopEnd :=
  match w.reads s.readIdx with
  | .chunk data =>
    if data = [] then
      ({ s with readIdx := s.readIdx + 1 }, [.readMaster], none)
    else
      ({ s with readIdx := s.readIdx + 1, output := s.output ++ data },
       [.readMaster, .printChunk data], none)
  | .ioError =>
    ({ s with readIdx := s.readIdx + 1 }, [.readMaster], some (.normal .readError))

/-- Loop-state update after `keyboard.read_event()` in an iteration whose poll
returned `None`: the cached returncode is `None`, the poll and event cursors
advance. -/
def afterEvent (s : LoopState) : LoopState :=
  { s with returncode := none, pollIdx := s.pollIdx + 1, eventIdx := s.eventIdx + 1 }

/-- Loop-state update after the `os.write(master_fd, _)` call: additionally
the write cursor advances. -/
def afterWrite (s : LoopState) : LoopState :=
  { afterEvent s with writeIdx := s.writeIdx + 1 }

/-- One full iteration of `while proc.poll() is None:` including the loop
condition itself.  Returns the new state, the actions performed this
iteration, and `some e` when the loop ends this iteration. -/
def loopIter (w : World) (s : LoopState) : LoopState × List Action × Option LoopEnd :=
  match w.polls s.pollIdx with
  | some code =>
    ({ s with returncode := some code, pollIdx := s.pollIdx + 1 },
     [.pollChild], some (.normal .childExited))
  | none =>
    match (w.events s.eventIdx).event_type with
    | .keyDown =>
      if (w.events s.eventIdx).name = "ctrl+c" then
        (afterEvent s, [.pollChild, .readKeyEvent, .sendSignal .pid SIGINT],
         some (.normal .interrupted))
      else
        match w.writeResults s.writeIdx with
        | .ok =>
          ((doRead w (afterWrite s)).1,
           [.pollChild, .readKeyEvent,
            .writeMaster (encodeStr (w.events s.eventIdx).name)]
             ++ (doRead w (afterWrite s)).2.1,
           (doRead w (afterWrite s)).2.2)
        | .ioError =>
          (afterWrite s,
           [.pollChild, .readKeyEvent,
            .writeMaster (encodeStr (w.events s.eventIdx).name)],
           some .writeRaised)
    | .keyUp =>
      ((doRead w (afterEvent s)).1,
       [.pollChild, .readKeyEvent] ++ (doRead w (afterEvent s)).2.1,
       (doRead w (afterEvent s)).2.2)

/-- Run the control loop on fuel.  `none` means the fuel ran out before the
loop ended. -/
def runLoop (w : World) : Nat → LoopState → Option (LoopState × List Action × LoopEnd)
  | 0, _ => none
  | fuel + 1, s =>
    match loopIter w s with
    | (s', acts, some e) => some (s', acts, e)
    | (s', acts, none) =>
      match runLoop w fuel s' with
      | none => none
      | some (s'', acts', e) => some (s'', acts ++ acts', e)

/-- `proc.returncode if proc.returncode is not None else -1`. -/
def exitCodeOf : Option Int → Int
  | some c => c
  | none => -1

/-- How the call to `run_interactive_command` ends: `Popen` raised
(`spawnError`), the function returned normally (`returned`), or an `OSError`
from `os.write` propagated to the caller through the `finally` block
(`writeErrorRaised`). -/
inductive Outcome
  | spawnError
  | returned (route : ExitRoute) (output : Bytes) (code : Int)
  | writeErrorRaised (output : Bytes)
deriving DecidableEq

/-- The observable result of one call: the trace of OS-visible actions and the
outcome. -/
structure RunResult where
  trace : List Action
  outcome : Outcome
deriving DecidableEq

/-- Loop state at entry: `output = b''`, no exit code reported yet, all oracle
cursors at zero. -/
def initState : LoopState :=
  { output := [], returncode := none, pollIdx := 0, eventIdx := 0,
    writeIdx := 0, readIdx := 0 }

/-- Actions before the `try` block: read terminal size, `os.openpty()`, and
the `subprocess.Popen` attempt with the adjusted environment. -/
def preTrace (w : World) (cmd : List String) : List Action :=
  [.getTerminalSize, .openPty, .spawnAttempt cmd (spawnEnv w)]

/-- Result packaging at the `return` statement, and the exception case. -/
def assembleOutcome (s : LoopState) : LoopEnd → Outcome
  | .normal route => .returned route s.output (exitCodeOf s.returncode)
  | .writeRaised => .writeErrorRaised s.output

/-- The embedding of `run_interactive_command(cmd, expected_runtime_seconds)`
on the POSIX branch.  If `Popen` fails the exception propagates before the
`try`/`finally` is entered, so neither descriptor is closed.  On success the
parent closes the slave descriptor, runs the loop, and the `finally` block
closes the master descriptor on every route out of the loop. -/
def run_interactive_command (w : World) (cmd : List String)
    (expected_runtime_seconds : Int) (fuel : Nat) : Option RunResult :=
  if w.spawnOk then
    match runLoop w fuel initState with
    | none => none
    | some (s, acts, e) =>
      some ⟨preTrace w cmd ++ [.closeSlaveFd] ++ acts ++ [.closeMasterFd],
            assembleOutcome s e⟩
  else
    some ⟨preTrace w cmd, .spawnError⟩

/-- World where `subprocess.Popen` raises (command not found); the pty was
already allocated when the spawn fails. -/
def wSpawnFail : World :=
  { polls := fun _ => none
    events := fun _ => { event_type := .keyUp, name := "" }
    writeResults := fun _ => .ok
    reads := fun _ => .chunk []
    spawnOk := false
    environ := [("PATH", "/usr/bin")] }

/-- World where every keyboard event is a `ctrl+c` key press and the child
never exits on its own. -/
def wInterrupt : World :=
  { polls := fun _ => none
    events := fun _ => { event_type := .keyDown, name := "ctrl+c" }
    writeResults := fun _ => .ok
    reads := fun _ => .chunk []
    spawnOk := true
    environ := [] }

/-- World where the first event is a press of `a` and every write to the
master descriptor raises `OSError`. -/
def wWriteErr : World :=
  { polls := fun _ => none
    events := fun _ => { event_type := .keyDown, name := "a" }
    writeResults := fun _ => .ioError
    reads := fun _ => .chunk []
    spawnOk := true
    environ := [] }

/-- World where every event is a key release and every read from the master
descriptor raises `OSError`. -/
def wReadErr : World :=
  { polls := fun _ => none
    events := fun _ => { event_type := .keyUp, name := "shift" }
    writeResults := fun _ => .ok
    reads := fun _ => .ioError
    spawnOk := true
    environ := [] }

/-- World whose child has already exited with status 7 at the first poll. -/
def wExited : World :=
  { polls := fun _ => some 7
    events := fun _ => { event_type := .keyUp, name := "" }
    writeResults := fun _ => .ok
    reads := fun _ => .chunk []
    spawnOk := true
    environ := [("PATH", "/usr/bin"), ("HOME", "/root")] }

/-- World where the first event is a press of the key named `enter`. -/
def wKeyEnter : World :=
  { polls := fun _ => none
    events := fun _ => { event_type := .keyDown, name := "enter" }
    writeResults := fun _ => .ok
    reads := fun _ => .chunk []
    spawnOk := true
    environ := [] }

/-- World where every event is a key release and every read yields the two
bytes of `hi`. -/
def wKeyUpChunk : World :=
  { polls := fun _ => none
    events := fun _ => { event_type := .keyUp, name := "shift" }
    writeResults := fun _ => .ok
    reads := fun _ => .chunk [104, 105]
    spawnOk := true
    environ := [] }

theorem lookupEnv_setEnvVar_same (env : List (String × String)) (k v : String) :
    lookupEnv (setEnvVar env k v) k = some v := by
  induction env with
  | nil => simp [setEnvVar, lookupEnv]
  | cons p rest ih =>
    by_cases h : p.1 = k
    · simp [setEnvVar, lookupEnv, h]
    · simp [setEnvVar, lookupEnv, h, ih]

theorem lookupEnv_setEnvVar_other (env : List (String × String)) (k v k' : String)
    (h : k' ≠ k) :
    lookupEnv (setEnvVar env k v) k' = lookupEnv env k' := by
  have hk : ¬(k = k') := fun he => h he.symm
  induction env with
  | nil => simp [setEnvVar, lookupEnv, hk]
  | cons p rest ih =>
    by_cases hp : p.1 = k
    · simp [setEnvVar, lookupEnv, hp, hk]
    · simp [setEnvVar, lookupEnv, hp, ih]

theorem run_spawnAttempt_mem {w : World} {cmd : List String} {t : Int}
    {fuel : Nat} {r : RunResult}
    (h : run_interactive_command w cmd t fuel = some r) :
    Action.spawnAttempt cmd (spawnEnv w) ∈ r.trace := by
  unfold run_interactive_command at h
  by_cases hs : w.spawnOk
  · rw [if_pos hs] at h
    cases hr : runLoop w fuel initState with
    | none => rw [hr] at h; simp at h
    | some res =>
      obtain ⟨s, acts, e⟩ := res
      rw [hr] at h
      injection h with h
      subst h
      simp [preTrace]
  · rw [if_neg hs] at h
    injection h with h
    subst h
    simp [preTrace]

theorem doRead_returncode (w : World) (s : LoopState) :
    (doRead w s).1.returncode = s.returncode := by
  unfold doRead
  cases h : w.reads s.readIdx with
  | chunk data => by_cases hd : data = [] <;> simp [hd]
  | ioError => simp

theorem loopIter_interrupt_returncode (w : World) (s s' : LoopState)
    (acts : List Action)
    (h : loopIter w s = (s', acts, some (.normal .interrupted))) :
    s'.returncode = none := by
  unfold loopIter at h
  split at h
  · simp only [Prod.mk.injEq] at h
    exact absurd h.2.2 (by simp)
  · split at h
    · split at h
      · simp only [Prod.mk.injEq] at h
        rw [← h.1]
        rfl
      · split at h
        · simp only [Prod.mk.injEq] at h
          rw [← h.1]
          exact doRead_returncode w (afterWrite s)
        · simp only [Prod.mk.injEq] at h
          exact absurd h.2.2 (by simp)
    · simp only [Prod.mk.injEq] at h
      rw [← h.1]
      exact doRead_returncode w (afterEvent s)

theorem runLoop_interrupt_returncode (w : World) :
    ∀ (fuel : Nat) (s s' : LoopState) (tr : List Action),
      runLoop w fuel s = some (s', tr, .normal .interrupted) → s'.returncode = none := by
  intro fuel
  induction fuel with
  | zero => intro s s' tr h; simp [runLoop] at h
  | succ n ih =>
    intro s s' tr h
    unfold runLoop at h
    split at h
    · rename_i sx acts e0 hi
      simp only [Option.some.injEq, Prod.mk.injEq] at h
      obtain ⟨h1, h2, h3⟩ := h
      subst h1 h2 h3
      exact loopIter_interrupt_returncode w s _ _ hi
    · rename_i sx acts hi
      split at h
      · exact absurd h (by simp)
      · rename_i s2 acts2 e2 hr
        simp only [Option.some.injEq, Prod.mk.injEq] at h
        obtain ⟨h1, h2, h3⟩ := h
        subst h1 h3
        exact ih sx _ acts2 hr

theorem loopIter_keyUp (w : World) (s : LoopState)
    (hp : w.polls s.pollIdx = none)
    (he : (w.events s.eventIdx).event_type = .keyUp) :
    loopIter w s =
      ((doRead w (afterEvent s)).1,
       [.pollChild, .readKeyEvent] ++ (doRead w (afterEvent s)).2.1,
       (doRead w (afterEvent s)).2.2) := by
  simp only [loopIter, hp, he]

theorem doRead_cases (w : World) (s : LoopState) :
    (∃ data, w.reads s.readIdx = .chunk data ∧ data ≠ [] ∧
      doRead w s = ({ s with readIdx := s.readIdx + 1, output := s.output ++ data },
                    [.readMaster, .printChunk data], none))
    ∨ (w.reads s.readIdx = .chunk [] ∧
      doRead w s = ({ s with readIdx := s.readIdx + 1 }, [.readMaster], none))
    ∨ (w.reads s.readIdx = .ioError ∧
      doRead w s = ({ s with readIdx := s.readIdx + 1 }, [.readMaster],
                    some (.normal .readError))) := by
  unfold doRead
  cases hr : w.reads s.readIdx with
  | chunk data =>
    by_cases hd : data = []
    · subst hd
      right; left; exact ⟨rfl, by simp⟩
    · left; exact ⟨data, rfl, hd, by simp [hd]⟩
  | ioError => right; right; exact ⟨rfl, by simp⟩

/-- C1: the claim says pty cleanup happens exactly once per session on every
exit route, including a spawn failure after the pty was allocated.  The code
violates this: when `subprocess.Popen` raises, the exception propagates before
the `try`/`finally` block is entered, so the pty is allocated (`openPty`
count 1) but neither descriptor is ever closed (both close counts 0, not 1);
both descriptors leak. -/
theorem c1_spawn_failure_leaks_pty :
    (run_interactive_command wSpawnFail ["not-a-real-command-xyz"] 30 5).map
        (fun r => (countAct r.trace .openPty, countAct r.trace .closeMasterFd,
                   countAct r.trace .closeSlaveFd, r.outcome)) =
      some (1, 0, 0, .spawnError) := by decide

/-- C2 counterexample: in a run whose first event is a `ctrl+c` key press, the
interrupt route is taken but no process-group-targeted signal is ever sent
(count 0); the `SIGINT` goes to the child's pid alone (count 1), because
`Popen.send_signal` performs `os.kill` on the pid.  This refutes the claim
that the signal targets the process group. -/
theorem c2_counterexample :
    (run_interactive_command wInterrupt ["bash"] 30 3).map (fun r =>
      (countAct r.trace (.sendSignal .processGroup SIGINT),
       countAct r.trace (.sendSignal .pid SIGINT), r.outcome)) =
      some (0, 1, .returned .interrupted [] (-1)) := by decide

/-- C2 (amended): for every key-press event of `ctrl+c` the loop sends
`SIGINT` to the child process itself (its pid, not its process group) and
exits the control loop in that same iteration; the iteration's actions
contain no write to the controller descriptor. -/
theorem c2_interrupt_sends_sigint_to_pid (w : World) (s : LoopState)
    (hp : w.polls s.pollIdx = none)
    (he : w.events s.eventIdx = { event_type := .keyDown, name := "ctrl+c" }) :
    loopIter w s =
      (afterEvent s, [.pollChild, .readKeyEvent, .sendSignal .pid SIGINT],
       some (.normal .interrupted))
    ∧ (∀ data, Action.writeMaster data ∉
        [Action.pollChild, Action.readKeyEvent, Action.sendSignal .pid SIGINT]) := by
  refine ⟨?_, by simp⟩
  simp [loopIter, hp, he]

/-- Witness for C2: the amended theorem applied to the concrete world
`wInterrupt` at the initial loop state. -/
theorem c2_interrupt_sends_sigint_to_pid_witness :
    (loopIter wInterrupt initState).2.2 = some (.normal .interrupted) := by
  rw [(c2_interrupt_sends_sigint_to_pid wInterrupt initState rfl rfl).1]

/-- C3 counterexample: in a run where `os.write(master_fd, _)` raises
`OSError` mid-session, the exception propagates to the caller (outcome
`writeErrorRaised`, not a normally assembled `returned` result), because only
the `os.read` call sits inside the `try`/`except OSError` block.  This
refutes the claim for the write half. -/
theorem c3_counterexample :
    (run_interactive_command wWriteErr ["x"] 30 1).map (fun r => r.outcome) =
      some (.writeErrorRaised []) := by decide

/-- C3 (amended): a failed read on the controller descriptor is swallowed:
the loop ends, cleanup runs, and the function returns the normally assembled
result (accumulated output plus `returncode`-or-`-1`); a failed write instead
propagates the `OSError` to the caller, though cleanup still runs via
`finally`. -/
theorem c3_descriptor_error_split (w : World) (cmd : List String) (t : Int)
    (fuel : Nat) (s : LoopState) (acts : List Action) (hs : w.spawnOk = true) :
    (runLoop w fuel initState = some (s, acts, .normal .readError) →
      run_interactive_command w cmd t fuel =
        some ⟨preTrace w cmd ++ [.closeSlaveFd] ++ acts ++ [.closeMasterFd],
              .returned .readError s.output (exitCodeOf s.returncode)⟩)
    ∧ (runLoop w fuel initState = some (s, acts, .writeRaised) →
      run_interactive_command w cmd t fuel =
        some ⟨preTrace w cmd ++ [.closeSlaveFd] ++ acts ++ [.closeMasterFd],
              .writeErrorRaised s.output⟩) := by
  constructor <;> intro hr <;>
    simp [run_interactive_command, hs, hr, assembleOutcome]

/-- Witness for C3: the amended theorem's read-error half applied to the
concrete world `wReadErr`. -/
theorem c3_descriptor_error_split_witness :
    run_interactive_command wReadErr ["cat"] 30 1 =
      some ⟨preTrace wReadErr ["cat"] ++ [.closeSlaveFd] ++
              [.pollChild, .readKeyEvent, .readMaster] ++ [.closeMasterFd],
            .returned .readError [] (-1)⟩ :=
  (c3_descriptor_error_split wReadErr ["cat"] 30 1
      { output := [], returncode := none, pollIdx := 1, eventIdx := 1,
        writeIdx := 0, readIdx := 1 }
      [.pollChild, .readKeyEvent, .readMaster] rfl).1 (by decide)

/-- C4: whenever the control loop ends through one of its in-language routes
and cleanup completes, the function returns the accumulated output bytes
paired with `exitCodeOf returncode`, where the sentinel `-1` is substituted
exactly when the OS has not reported an exit code (`returncode = none`) and a
reported code is passed through unchanged. -/
theorem c4_result_assembly (w : World) (cmd : List String) (t : Int)
    (fuel : Nat) (s : LoopState) (acts : List Action) (route : ExitRoute)
    (hs : w.spawnOk = true)
    (hr : runLoop w fuel initState = some (s, acts, .normal route)) :
    run_interactive_command w cmd t fuel =
      some ⟨preTrace w cmd ++ [.closeSlaveFd] ++ acts ++ [.closeMasterFd],
            .returned route s.output (exitCodeOf s.returncode)⟩
    ∧ exitCodeOf none = -1 ∧ ∀ c : Int, exitCodeOf (some c) = c := by
  refine ⟨?_, rfl, fun c => rfl⟩
  simp [run_interactive_command, hs, hr, assembleOutcome]

/-- Witness for C4: a child that has already exited with status 7 at the
first poll. -/
theorem c4_result_assembly_witness :
    run_interactive_command wExited ["true"] 30 1 =
      some ⟨preTrace wExited ["true"] ++ [.closeSlaveFd] ++ [.pollChild] ++
              [.closeMasterFd],
            .returned .childExited [] 7⟩ :=
  (c4_result_assembly wExited ["true"] 30 1
      { output := [], returncode := some 7, pollIdx := 1, eventIdx := 0,
        writeIdx := 0, readIdx := 0 }
      [.pollChild] .childExited rfl (by decide)).1

/-- C5: for every key-press event of a non-interrupt key, the iteration
writes the UTF-8 bytes of the key's symbolic name (the literal name, e.g.
`enter`, not a translated control byte) to the controller descriptor. -/
theorem c5_keypress_writes_key_name (w : World) (s : LoopState) (n : String)
    (hp : w.polls s.pollIdx = none)
    (he : w.events s.eventIdx = { event_type := .keyDown, name := n })
    (hn : n ≠ "ctrl+c") :
    Action.writeMaster (encodeStr n) ∈ (loopIter w s).2.1 := by
  simp only [loopIter, hp, he]
  rw [if_neg hn]
  cases hw : w.writeResults s.writeIdx <;> simp

/-- Witness for C5: a press of the key named `enter` writes the literal bytes
of the word `enter`. -/
theorem c5_keypress_writes_key_name_witness :
    Action.writeMaster (encodeStr "enter") ∈ (loopIter wKeyEnter initState).2.1
    ∧ encodeStr "enter" = [101, 110, 116, 101, 114] :=
  ⟨c5_keypress_writes_key_name wKeyEnter initState "enter" rfl rfl (by decide),
   by decide⟩

/-- C6: if the child has already exited (first poll reports code `c`), the
loop exits without processing any input and the function returns empty output
and exit code `c`. -/
theorem c6_exited_child_result (w : World) (cmd : List String) (t : Int)
    (c : Int) (fuel : Nat) (hs : w.spawnOk = true) (hp : w.polls 0 = some c)
    (hf : 0 < fuel) :
    run_interactive_command w cmd t fuel =
      some ⟨preTrace w cmd ++ [.closeSlaveFd] ++ [.pollChild] ++ [.closeMasterFd],
            .returned .childExited [] c⟩ := by
  obtain ⟨k, rfl⟩ : ∃ k, fuel = k + 1 := ⟨fuel - 1, by omega⟩
  have h1 : runLoop w (k + 1) initState =
      some ({ output := [], returncode := some c, pollIdx := 1, eventIdx := 0,
              writeIdx := 0, readIdx := 0 }, [.pollChild], .normal .childExited) := by
    simp [runLoop, loopIter, initState, hp]
  simp [run_interactive_command, hs, h1, assembleOutcome, exitCodeOf]

/-- Witness for C6: the concrete world `wExited` whose child exited with
status 7. -/
theorem c6_exited_child_result_witness :
    run_interactive_command wExited ["false"] 30 2 =
      some ⟨preTrace wExited ["false"] ++ [.closeSlaveFd] ++ [.pollChild] ++
              [.closeMasterFd],
            .returned .childExited [] 7⟩ :=
  c6_exited_child_result wExited ["false"] 30 7 2 rfl rfl (by decide)

/-- C7: every run spawns the child with the parent environment modified in
exactly one place: `TERM` is bound to `xterm` and every other variable looks
up unchanged. -/
theorem c7_env_term_override (w : World) (cmd : List String) (t : Int)
    (fuel : Nat) (r : RunResult)
    (h : run_interactive_command w cmd t fuel = some r) :
    Action.spawnAttempt cmd (spawnEnv w) ∈ r.trace
    ∧ lookupEnv (spawnEnv w) "TERM" = some "xterm"
    ∧ ∀ k, k ≠ "TERM" → lookupEnv (spawnEnv w) k = lookupEnv w.environ k :=
  ⟨run_spawnAttempt_mem h, lookupEnv_setEnvVar_same w.environ "TERM" "xterm",
   fun k hk => lookupEnv_setEnvVar_other w.environ "TERM" "xterm" k hk⟩

/-- Witness for C7: the environment spawned in the `wExited` run binds `TERM`
to `xterm` and leaves `HOME` unchanged. -/
theorem c7_env_term_override_witness :
    lookupEnv (spawnEnv wExited) "TERM" = some "xterm"
    ∧ lookupEnv (spawnEnv wExited) "HOME" = lookupEnv wExited.environ "HOME" :=
  ⟨(c7_env_term_override wExited ["true"] 30 1
      ⟨preTrace wExited ["true"] ++ [.closeSlaveFd] ++ [.pollChild] ++
         [.closeMasterFd], .returned .childExited [] 7⟩ (by decide)).2.1,
   (c7_env_term_override wExited ["true"] 30 1
      ⟨preTrace wExited ["true"] ++ [.closeSlaveFd] ++ [.pollChild] ++
         [.closeMasterFd], .returned .childExited [] 7⟩ (by decide)).2.2
     "HOME" (by decide)⟩

/-- C8: the `expected_runtime_seconds` parameter has no effect: with the same
world, command and fuel, any two values of the parameter yield the identical
trace of actions and the identical result; no timeout is ever enforced. -/
theorem c8_runtime_param_no_effect (w : World) (cmd : List String)
    (t1 t2 : Int) (fuel : Nat) :
    run_interactive_command w cmd t1 fuel = run_interactive_command w cmd t2 fuel :=
  rfl

/-- C9: on the interrupt exit route the cached `returncode` is still `none`
when the result is assembled (the child is never polled again after the
signal), so the returned exit code is the sentinel `-1`. -/
theorem c9_interrupt_returns_sentinel (w : World) (cmd : List String) (t : Int)
    (fuel : Nat) (s : LoopState) (acts : List Action)
    (hs : w.spawnOk = true)
    (hr : runLoop w fuel initState = some (s, acts, .normal .interrupted)) :
    s.returncode = none
    ∧ run_interactive_command w cmd t fuel =
        some ⟨preTrace w cmd ++ [.closeSlaveFd] ++ acts ++ [.closeMasterFd],
              .returned .interrupted s.output (-1)⟩ := by
  have h0 : s.returncode = none := runLoop_interrupt_returncode w fuel initState s acts hr
  refine ⟨h0, ?_⟩
  simp [run_interactive_command, hs, hr, assembleOutcome, h0, exitCodeOf]

/-- Witness for C9: the `wInterrupt` run returns exit code `-1`. -/
theorem c9_interrupt_returns_sentinel_witness :
    run_interactive_command wInterrupt ["sleep"] 30 1 =
      some ⟨preTrace wInterrupt ["sleep"] ++ [.closeSlaveFd] ++
              [.pollChild, .readKeyEvent, .sendSignal .pid SIGINT] ++
              [.closeMasterFd],
            .returned .interrupted [] (-1)⟩ :=
  (c9_interrupt_returns_sentinel wInterrupt ["sleep"] 30 1
      { output := [], returncode := none, pollIdx := 1, eventIdx := 1,
        writeIdx := 0, readIdx := 0 }
      [.pollChild, .readKeyEvent, .sendSignal .pid SIGINT] rfl (by decide)).2

/-- C10: a key-release event writes nothing to the descriptor and sends no
signal, and the iteration still performs the read step, appending a pending
non-empty chunk to the output buffer. -/
theorem c10_keyup_frame (w : World) (s : LoopState)
    (hp : w.polls s.pollIdx = none)
    (he : (w.events s.eventIdx).event_type = .keyUp) :
    (∀ data, Action.writeMaster data ∉ (loopIter w s).2.1)
    ∧ (∀ target signalNum, Action.sendSignal target signalNum ∉ (loopIter w s).2.1)
    ∧ Action.readMaster ∈ (loopIter w s).2.1
    ∧ (∀ data, w.reads s.readIdx = .chunk data → data ≠ [] →
        (loopIter w s).1.output = s.output ++ data) := by
  rw [loopIter_keyUp w s hp he]
  rcases doRead_cases w (afterEvent s) with ⟨d, hrd, hd, hD⟩ | ⟨hrd, hD⟩ | ⟨hrd, hD⟩
  · have hrd2 : w.reads s.readIdx = ReadResult.chunk d := hrd
    rw [hD]
    refine ⟨by simp, by simp, by simp, ?_⟩
    intro data h1 h2
    rw [hrd2] at h1
    injection h1 with h1
    subst h1
    simp [afterEvent]
  · have hrd2 : w.reads s.readIdx = ReadResult.chunk [] := hrd
    rw [hD]
    refine ⟨by simp, by simp, by simp, ?_⟩
    intro data h1 h2
    rw [hrd2] at h1
    injection h1 with h1
    exact absurd h1.symm h2
  · have hrd2 : w.reads s.readIdx = ReadResult.ioError := hrd
    rw [hD]
    refine ⟨by simp, by simp, by simp, ?_⟩
    intro data h1 h2
    rw [hrd2] at h1
    exact absurd h1 (by simp)

/-- Witness for C10: a key release in `wKeyUpChunk` drains the pending chunk
into the output buffer. -/
theorem c10_keyup_frame_witness :
    Action.readMaster ∈ (loopIter wKeyUpChunk initState).2.1
    ∧ (loopIter wKeyUpChunk initState).1.output = [104, 105] :=
  ⟨(c10_keyup_frame wKeyUpChunk initState rfl rfl).2.2.1,
   (c10_keyup_frame wKeyUpChunk initState rfl rfl).2.2.2 [104, 105] rfl (by decide)⟩

end RaAid
